import Mathlib

/-!
Verification of the activity segmentation engine (tracker, privacy filter,
session store) of the `actividad-web` repository.

The Python sources are shallowly embedded:
* `src/app/db.py`       → `ActivityDB` section (session store as a `List`)
* `src/app/privacy.py`  → `Privacy` section
* `src/app/tracker.py`  → `Tracker` section (state passed explicitly)

Modelling conventions:
* Python `str.strip()` is modelled by `pyStrip`, and `str.casefold()` /
  `str.lower()` by `pyCasefold` (ASCII lower-casing; they agree on the
  ASCII strings that occur in the code's own literals).
* Python floats (wall/monotonic clock readings) are modelled by `ℚ`; the
  arithmetic the code performs on them (subtraction, `max`, `int(...)`
  truncation toward zero, comparisons) is exact.
* A compiled regex (`re.compile(pattern, re.IGNORECASE)`) is modelled as an
  opaque search predicate `String → Bool` attached to the compiled rule; the
  embedding only tracks *which* string the search is applied to.
* The sqlite layer can raise on a write; a flush is therefore parametrised by
  a boolean oracle `dbOk` telling whether the store acknowledges the write.
-/

namespace ActividadWeb

/-- Truncation toward zero, the semantics of Python's `int(x)` on a float. -/
def pyTrunc (x : ℚ) : ℤ :=
  if 0 ≤ x then ⌊x⌋ else ⌈x⌉

/-- ASCII lower-casing of one character, the model of Python case folding on
the character level. -/
def lowerChar (c : Char) : Char :=
  if 'A' ≤ c ∧ c ≤ 'Z' then Char.ofNat (c.toNat + 32) else c

/-- Python `str.strip()`: drop whitespace from both ends. -/
def pyStrip (s : String) : String :=
  ⟨((s.data.dropWhile Char.isWhitespace).reverse.dropWhile Char.isWhitespace).reverse⟩

/-- Python `str.casefold()` (and `str.lower()`), modelled as ASCII
lower-casing — the two agree on ASCII input. -/
def pyCasefold (s : String) : String :=
  ⟨s.data.map lowerChar⟩

/-! ## Data model -/

/-- `detector.ActiveWindow`: one observation of the focused window. -/
structure ActiveWindow where
  app : String
  title : String
  source : String
  pid : Option ℤ := none
  windowId : Option String := none
deriving DecidableEq, Repr

/-- A persisted session row (`db.SessionRow` without the auto-increment id,
which the store assigns; rows are kept in insertion order). -/
structure SessionRecord where
  start_ts : ℤ
  end_ts : ℤ
  app : String
  title : String
  source : String
deriving DecidableEq, Repr

/-! ## Session store (`src/app/db.py`) -/

/-- `ActivityDB._normalize_app_label`: an empty or case-insensitive
"desconocido" label is canonicalized to the sentinel `"Proceso"`. -/
def normalize_app_label (app : String) : String :=
  let value := pyStrip app
  if value = "" then "Proceso"
  else if pyCasefold value = "desconocido" then "Proceso"
  else value

/-- `ActivityDB.insert_session`: silently drops the row when
`end_ts <= start_ts`, otherwise appends it with the app label normalized. -/
def insert_session (store : List SessionRecord) (start_ts end_ts : ℤ)
    (app title source : String) : List SessionRecord :=
  if end_ts ≤ start_ts then store
  else store ++ [⟨start_ts, end_ts, normalize_app_label app, title, source⟩]

/-- `ActivityDB.bulk_insert_sessions`: per-row validation identical to
`insert_session`; returns the new store and the count of rows actually
inserted.  (The Python early returns on an empty input or an empty
normalized list coincide with the general case.) -/
def bulk_insert_sessions (store : List SessionRecord)
    (rows : List (ℤ × ℤ × String × String × String)) :
    List SessionRecord × ℕ :=
  let normalized_rows := rows.filterMap fun r =>
    if r.2.1 ≤ r.1 then none
    else some (⟨r.1, r.2.1, normalize_app_label r.2.2.1, r.2.2.2.1, r.2.2.2.2⟩ : SessionRecord)
  (store ++ normalized_rows, normalized_rows.length)

/-! ## Privacy filter (`src/app/privacy.py`) -/

inductive RuleScope where
  | app
  | title
deriving DecidableEq, Repr

inductive MatchMode where
  | contains
  | exact
  | regex
deriving DecidableEq, Repr

/-- `privacy.PrivacyRule`. -/
structure PrivacyRule where
  id : ℤ
  scope : RuleScope
  matchMode : MatchMode
  pattern : String
  enabled : Bool
  updatedTs : ℤ

/-- `privacy._CompiledRule`: `regexSearch` is the opaque model of the
compiled case-insensitive regex's `search` method (`none` for non-regex
rules). -/
structure CompiledRule where
  rule : PrivacyRule
  normalizedPattern : String
  regexSearch : Option (String → Bool)

/-- Python's `pattern in value` substring test. -/
def strContainsSub (hay pat : String) : Bool :=
  decide (pat.data <:+: hay.data)

/-- `PrivacyFilter.update_rules`, compiling one rule: disabled rules and
blank patterns are skipped; regex rules with an uncompilable pattern
(`regexSem pattern = none`) are silently dropped. -/
def compileRule (regexSem : String → Option (String → Bool))
    (rule : PrivacyRule) : Option CompiledRule :=
  if !rule.enabled then none
  else
    let pattern := pyStrip rule.pattern
    if pattern = "" then none
    else
      match rule.matchMode with
      | .regex =>
        match regexSem pattern with
        | none => none
        | some f => some ⟨rule, pyCasefold pattern, some f⟩
      | _ => some ⟨rule, pyCasefold pattern, none⟩

/-- `PrivacyFilter.update_rules` over the whole list (order preserved). -/
def compileRules (regexSem : String → Option (String → Bool))
    (rules : List PrivacyRule) : List CompiledRule :=
  rules.filterMap (compileRule regexSem)

/-- The loop body of `PrivacyFilter.match_reason`: rules are tried in list
order, first match wins. -/
def matchLoop (appText titleText appCase titleCase : String) :
    List CompiledRule → Option PrivacyRule
  | [] => none
  | item :: rest =>
    let value := if item.rule.scope = RuleScope.title then titleText else appText
    let valueCase := if item.rule.scope = RuleScope.title then titleCase else appCase
    if value = "" then matchLoop appText titleText appCase titleCase rest
    else
      match item.rule.matchMode with
      | .contains =>
        if strContainsSub valueCase item.normalizedPattern then some item.rule
        else matchLoop appText titleText appCase titleCase rest
      | .exact =>
        if valueCase = item.normalizedPattern then some item.rule
        else matchLoop appText titleText appCase titleCase rest
      | .regex =>
        match item.regexSearch with
        | some f =>
          if f value then some item.rule
          else matchLoop appText titleText appCase titleCase rest
        | none => matchLoop appText titleText appCase titleCase rest

/-- `PrivacyFilter.match_reason`. -/
def match_reason (rules : List CompiledRule) (app title : String) :
    Option PrivacyRule :=
  matchLoop (pyStrip app) (pyStrip title)
    (pyCasefold (pyStrip app)) (pyCasefold (pyStrip title)) rules

/-- `PrivacyFilter.is_excluded`. -/
def is_excluded (rules : List CompiledRule) (app title : String) : Bool :=
  (match_reason rules app title).isSome

/-! ## Tracker (`src/app/tracker.py`) -/

/-- `tracker._CurrentSession`: the in-memory open segment. -/
structure CurrentSession where
  app : String
  title : String
  source : String
  start_ts : ℤ
deriving DecidableEq, Repr

/-- The clamped configuration computed by `ActivityTracker.__init__`. -/
structure TrackerConfig where
  intervalSeconds : ℚ
  idleEnabled : Bool
  idleThresholdSeconds : ℤ
  effectiveIdleSeconds : ℤ
  sleepGapSeconds : ℤ
deriving DecidableEq, Repr

/-- `ActivityTracker.__init__`: clamping of the supplied configuration. -/
def mkTrackerConfig (interval_seconds : ℚ) (idle_enabled : Bool)
    (idle_threshold_seconds effective_idle_seconds sleep_gap_seconds : ℤ) :
    TrackerConfig where
  intervalSeconds := max (1/2 : ℚ) interval_seconds
  idleEnabled := idle_enabled
  idleThresholdSeconds := max 1 idle_threshold_seconds
  effectiveIdleSeconds := max 1 effective_idle_seconds
  sleepGapSeconds := max 15 sleep_gap_seconds

/-- The mutable tracker state guarded by `self._lock`, together with the
session store the tracker writes to. -/
structure TrackerState where
  current : Option CurrentSession
  paused : Bool
  excludedMatches : ℕ
  sleepSegments : ℕ
  store : List SessionRecord
deriving DecidableEq, Repr

/-- `ActivityTracker._flush_locked`, with `dbOk` the storage oracle:
`dbOk = false` models `insert_session`'s sqlite write raising (which can
only happen once the write is attempted, i.e. when `end_ts > start_ts`).
Returns the new state and `false` exactly when the exception propagates,
in which case the open segment (and its `start_ts`) is retained. -/
def flush_locked (st : TrackerState) (end_ts : ℤ) (dbOk : Bool) :
    TrackerState × Bool :=
  match st.current with
  | none => (st, true)
  | some cur =>
    if decide (cur.start_ts < end_ts) && !dbOk then (st, false)
    else
      ({ st with
          store := insert_session st.store cur.start_ts end_ts cur.app cur.title cur.source
          current := none }, true)

/-- `ActivityTracker._is_unidentified`. -/
def is_unidentified (w : ActiveWindow) : Bool :=
  let app := pyCasefold (pyStrip w.app)
  let title := pyStrip w.title
  (app = "proceso" || app = "desconocido") && title = ""

/-- `ActivityTracker._should_exclude` (`none` models a tracker constructed
without a privacy filter). -/
def should_exclude (pf : Option (List CompiledRule)) (w : ActiveWindow) : Bool :=
  match pf with
  | none => false
  | some rules => is_excluded rules w.app w.title

/-- `ActivityTracker._ingest_locked` (store writes acknowledged). -/
def ingest_locked (pf : Option (List CompiledRule)) (st : TrackerState)
    (now_ts : ℤ) (detected : Option ActiveWindow) : TrackerState :=
  match detected with
  | none => (flush_locked st now_ts true).1
  | some w =>
    if should_exclude pf w then
      let st := { st with excludedMatches := st.excludedMatches + 1 }
      (flush_locked st now_ts true).1
    else if is_unidentified w then st
    else
      match st.current with
      | none => { st with current := some ⟨w.app, w.title, w.source, now_ts⟩ }
      | some cur =>
        if cur.app = w.app && cur.title = w.title && cur.source = w.source then st
        else
          let st := (flush_locked st now_ts true).1
          { st with current := some ⟨w.app, w.title, w.source, now_ts⟩ }

/-- `ActivityTracker._apply_idle_state`. -/
def apply_idle_state (cfg : TrackerConfig) (detected : Option ActiveWindow)
    (idle_seconds : Option ℤ) : Option ActiveWindow :=
  match detected with
  | none => none
  | some w =>
    match idle_seconds with
    | none => some w
    | some idle =>
      if cfg.idleThresholdSeconds ≤ idle then
        some { app := "Inactivo", title := "", source := "idle" }
      else if cfg.effectiveIdleSeconds ≤ idle then
        some { w with source := w.source ++ ":idle" }
      else some w

/-- `ActivityTracker._compute_sleep_gap`: wall/monotonic readings as exact
rationals; returns the gap `(start_ts, end_ts)` when a suspend is detected. -/
def compute_sleep_gap (cfg : TrackerConfig) (last_wall last_mono : Option ℚ)
    (now_wall now_mono : ℚ) : Option (ℤ × ℤ) :=
  match last_wall, last_mono with
  | some lw, some lm =>
    let wall_delta := max 0 (now_wall - lw)
    let mono_delta := max 0 (now_mono - lm)
    let suspended_seconds := max 0 (wall_delta - mono_delta)
    if suspended_seconds < (cfg.sleepGapSeconds : ℚ) then none
    else
      let start_ts := pyTrunc lw
      let end_ts := pyTrunc now_wall
      if end_ts ≤ start_ts then none else some (start_ts, end_ts)
  | _, _ => none

/-- `ActivityTracker._record_sleep_gap_locked` (store writes acknowledged). -/
def record_sleep_gap_locked (st : TrackerState) (start_ts end_ts : ℤ) :
    TrackerState :=
  let st := (flush_locked st start_ts true).1
  let st := { st with
    store := insert_session st.store start_ts end_ts "Suspensión/Hibernación" "" "sleep" }
  { st with sleepSegments := st.sleepSegments + 1 }

/-- The locked portion of one iteration of `ActivityTracker._run`: flush when
paused; otherwise record a detected sleep gap, then ingest the
idle-normalized observation. -/
def tick_locked (cfg : TrackerConfig) (pf : Option (List CompiledRule))
    (st : TrackerState) (now_ts : ℤ) (sleep_gap : Option (ℤ × ℤ))
    (detected : Option ActiveWindow) (idle_seconds : Option ℤ) : TrackerState :=
  if st.paused then (flush_locked st now_ts true).1
  else
    let st :=
      match sleep_gap with
      | some g => record_sleep_gap_locked st g.1 g.2
      | none => st
    ingest_locked pf st now_ts (apply_idle_state cfg detected idle_seconds)

/-- A run of the ingestion step over a list of `(now_ts, observation)` ticks
with a fixed privacy filter. -/
def run_ingest (pf : Option (List CompiledRule)) (st : TrackerState)
    (ticks : List (ℤ × Option ActiveWindow)) : TrackerState :=
  ticks.foldl (fun s t => ingest_locked pf s t.1 t.2) st

/-- The open segment, if any, does not match the privacy filter. -/
def segOk (pf : Option (List CompiledRule)) (st : TrackerState) : Prop :=
  ∀ cur, st.current = some cur →
    should_exclude pf ⟨cur.app, cur.title, cur.source, none, none⟩ = false

/-- The spec's description (§4.2) of when one compiled rule matches a pair:
scope selects the compared field, an empty (stripped) value never matches,
"contains" is a substring test on the case-folded value against the
case-folded pattern, "exact" is full case-folded equality, and "regex"
applies the compiled case-insensitive search to the original-case value. -/
def ruleMatchesSpec (item : CompiledRule) (app title : String) : Bool :=
  let value :=
    match item.rule.scope with
    | RuleScope.app => pyStrip app
    | RuleScope.title => pyStrip title
  if value = "" then false
  else
    match item.rule.matchMode with
    | .contains => strContainsSub (pyCasefold value) item.normalizedPattern
    | .exact => decide (pyCasefold value = item.normalizedPattern)
    | .regex =>
      match item.regexSearch with
      | some f => f value
      | none => false

/-! ### Concrete fixtures used by witnesses and counterexamples -/

/-- A regex semantics in which no pattern compiles (no regex rules arise). -/
def noRegexSem : String → Option (String → Bool) := fun _ => none

def exRuleContains : PrivacyRule :=
  { id := 1, scope := .app, matchMode := .contains, pattern := "proceso",
    enabled := true, updatedTs := 0 }

def exRuleExact : PrivacyRule :=
  { id := 2, scope := .app, matchMode := .exact, pattern := "proceso",
    enabled := true, updatedTs := 0 }

def exFilterOn : Option (List CompiledRule) :=
  some (compileRules noRegexSem [exRuleContains])

def exFilterOff : Option (List CompiledRule) :=
  some (compileRules noRegexSem [{ exRuleContains with enabled := false }])

def exFilterExact : Option (List CompiledRule) :=
  some (compileRules noRegexSem [exRuleExact])

/-- The unattributed sentinel observation with an empty title. -/
def obsProceso : ActiveWindow := { app := "Proceso", title := "", source := "x11" }

/-- An observation whose label normalizes to the sentinel but whose title is
not empty. -/
def obsDesconocido : ActiveWindow := { app := "desconocido", title := "x", source := "src" }

def obsEditor : ActiveWindow := { app := "Editor", title := "doc.txt", source := "x11" }

/-- The fresh tracker state (no open segment, empty store). -/
def initState : TrackerState :=
  { current := none, paused := false, excludedMatches := 0, sleepSegments := 0, store := [] }

/-- A state with one open segment, used by witnesses. -/
def openState : TrackerState :=
  { current := some ⟨"A", "t", "s", 10⟩, paused := false,
    excludedMatches := 0, sleepSegments := 0, store := [] }

/-! ## Helper lemmas -/

lemma flush_locked_none {st : TrackerState} (e : ℤ) (dbOk : Bool)
    (h : st.current = none) : flush_locked st e dbOk = (st, true) := by
  simp [flush_locked, h]

lemma flush_locked_some_true {st : TrackerState} {cur : CurrentSession} (e : ℤ)
    (h : st.current = some cur) :
    flush_locked st e true =
      ({ st with
          store := insert_session st.store cur.start_ts e cur.app cur.title cur.source
          current := none }, true) := by
  simp [flush_locked, h]

lemma flush_locked_some_false {st : TrackerState} {cur : CurrentSession} (e : ℤ)
    (h : st.current = some cur) (hlt : cur.start_ts < e) :
    flush_locked st e false = (st, false) := by
  simp [flush_locked, h, hlt]

lemma flush_locked_true_current (st : TrackerState) (e : ℤ) :
    ((flush_locked st e true).1).current = none := by
  cases h : st.current
  · rw [flush_locked_none e true h]; exact h
  · rw [flush_locked_some_true e h]

lemma flush_locked_true_counters (st : TrackerState) (e : ℤ) :
    ((flush_locked st e true).1).excludedMatches = st.excludedMatches ∧
    ((flush_locked st e true).1).sleepSegments = st.sleepSegments ∧
    ((flush_locked st e true).1).paused = st.paused := by
  cases h : st.current
  · rw [flush_locked_none e true h]; exact ⟨rfl, rfl, rfl⟩
  · rw [flush_locked_some_true e h]; exact ⟨rfl, rfl, rfl⟩

/-- `should_exclude` only reads the app and title fields. -/
lemma should_exclude_fields (pf : Option (List CompiledRule)) (w : ActiveWindow)
    (src : String) (p : Option ℤ) (q : Option String) :
    should_exclude pf ⟨w.app, w.title, src, p, q⟩ = should_exclude pf w := by
  cases pf <;> rfl

lemma pyTrunc_intCast (n : ℤ) : pyTrunc (n : ℚ) = n := by
  unfold pyTrunc
  split <;> simp

/-! ## Claim theorems -/

/-- C1. Per-tick ingestion decision: for a normalized, non-excluded,
identified observation, with no open segment the engine opens one at `now`;
with an open segment of equal (app, title, source) the state is unchanged;
otherwise the segment is flushed at `now` and a new one opened at `now`;
and a `none` observation flushes any open segment and opens none. -/
theorem C1_ingest_decision (pf : Option (List CompiledRule)) (st : TrackerState)
    (now_ts : ℤ) (w : ActiveWindow)
    (hex : should_exclude pf w = false) (hid : is_unidentified w = false) :
    (st.current = none →
      ingest_locked pf st now_ts (some w)
        = { st with current := some ⟨w.app, w.title, w.source, now_ts⟩ }) ∧
    (∀ cur, st.current = some cur →
      ((cur.app = w.app ∧ cur.title = w.title ∧ cur.source = w.source) →
        ingest_locked pf st now_ts (some w) = st) ∧
      (¬ (cur.app = w.app ∧ cur.title = w.title ∧ cur.source = w.source) →
        ingest_locked pf st now_ts (some w)
          = { (flush_locked st now_ts true).1 with
              current := some ⟨w.app, w.title, w.source, now_ts⟩ })) ∧
    (ingest_locked pf st now_ts none = (flush_locked st now_ts true).1 ∧
      (ingest_locked pf st now_ts none).current = none) := by
  refine ⟨?_, ?_, rfl, ?_⟩
  · intro h
    simp [ingest_locked, hex, hid, h]
  · intro cur hc
    constructor
    · rintro ⟨h1, h2, h3⟩
      simp [ingest_locked, hex, hid, hc, h1, h2, h3]
    · intro hne
      have hb : (cur.app = w.app && cur.title = w.title && cur.source = w.source) = false := by
        cases hbb : (cur.app = w.app && cur.title = w.title && cur.source = w.source)
        · rfl
        · exact absurd (by simpa [and_assoc] using hbb) hne
      simp [ingest_locked, hex, hid, hc, hb]
  · show ((flush_locked st now_ts true).1).current = none
    exact flush_locked_true_current st now_ts

/-- C1 witness: a concrete fresh state and an identified observation open a
segment at the tick's timestamp. -/
theorem C1_ingest_decision_witness :
    ingest_locked none initState 5 (some obsEditor)
      = { initState with current := some ⟨"Editor", "doc.txt", "x11", 5⟩ } :=
  (C1_ingest_decision none initState 5 obsEditor (by decide) (by decide)).1 rfl

/-- C3. Idle normalization: a `none` idle reading passes the observation
through unchanged; `idleSeconds ≥ idleThreshold` replaces it by the synthetic
inactive observation ("Inactivo", empty title, source "idle");
`effectiveIdleThreshold ≤ idleSeconds < idleThreshold` keeps app and title
but suffixes the source tag — which differs from the original source, so the
boundary comparison forces a segment close/reopen; otherwise the observation
is unchanged. -/
theorem C3_idle_normalization (cfg : TrackerConfig) (w : ActiveWindow) (idle : ℤ) :
    (apply_idle_state cfg (some w) none = some w) ∧
    (cfg.idleThresholdSeconds ≤ idle →
      apply_idle_state cfg (some w) (some idle)
        = some ⟨"Inactivo", "", "idle", none, none⟩) ∧
    (cfg.effectiveIdleSeconds ≤ idle → idle < cfg.idleThresholdSeconds →
      apply_idle_state cfg (some w) (some idle)
          = some { w with source := w.source ++ ":idle" } ∧
        w.source ++ ":idle" ≠ w.source) ∧
    (idle < cfg.effectiveIdleSeconds → idle < cfg.idleThresholdSeconds →
      apply_idle_state cfg (some w) (some idle) = some w) := by
  refine ⟨rfl, ?_, ?_, ?_⟩
  · intro h
    simp [apply_idle_state, h]
  · intro h1 h2
    refine ⟨by simp [apply_idle_state, h1, h2, not_le.2 h2], ?_⟩
    intro h
    have hlen := congrArg String.length h
    simp [String.length_append] at hlen
    exact absurd hlen (by decide)
  · intro h1 h2
    simp [apply_idle_state, not_le.2 h1, not_le.2 h2]

/-- C3 witness: with the default configuration, an idle reading of 61s
replaces the editor observation by the synthetic inactive one. -/
theorem C3_idle_normalization_witness :
    apply_idle_state (mkTrackerConfig 2 true 60 8 90) (some obsEditor) (some 61)
      = some ⟨"Inactivo", "", "idle", none, none⟩ :=
  (C3_idle_normalization (mkTrackerConfig 2 true 60 8 90) obsEditor 61).2.1 (by decide)

/-- C5. No zero/negative-duration sessions: `insert_session` drops a row with
`end_ts ≤ start_ts`; both insert paths preserve the store invariant
`start_ts < end_ts`; and `bulk_insert_sessions` returns the count of rows
actually inserted. -/
theorem C5_no_nonpositive_sessions (store : List SessionRecord) (s e : ℤ)
    (a t src : String) (rows : List (ℤ × ℤ × String × String × String)) :
    (e ≤ s → insert_session store s e a t src = store) ∧
    ((∀ r ∈ store, r.start_ts < r.end_ts) →
      ∀ r ∈ insert_session store s e a t src, r.start_ts < r.end_ts) ∧
    ((∀ r ∈ store, r.start_ts < r.end_ts) →
      ∀ r ∈ (bulk_insert_sessions store rows).1, r.start_ts < r.end_ts) ∧
    (bulk_insert_sessions store rows).2
      = (bulk_insert_sessions store rows).1.length - store.length := by
  refine ⟨?_, ?_, ?_, ?_⟩
  · intro h
    simp [insert_session, h]
  · intro hinv r hr
    unfold insert_session at hr
    split at hr
    · exact hinv r hr
    · rcases List.mem_append.1 hr with h | h
      · exact hinv r h
      · rcases List.mem_singleton.1 h with rfl
        show s < e
        omega
  · intro hinv r hr
    unfold bulk_insert_sessions at hr
    rcases List.mem_append.1 hr with h | h
    · exact hinv r h
    · rcases List.mem_filterMap.1 h with ⟨x, _, hx⟩
      split at hx
      · exact absurd hx (by simp)
      · rcases Option.some_inj.1 hx with rfl
        show x.1 < x.2.1
        omega
  · unfold bulk_insert_sessions
    simp

/-- C5 witness: a zero-duration row is dropped by the single-row insert. -/
theorem C5_no_nonpositive_sessions_witness :
    insert_session [] 5 5 "A" "t" "s" = [] :=
  (C5_no_nonpositive_sessions [] 5 5 "A" "t" "s" []).1 (by decide)

/-- C6. Flush semantics and failure atomicity: flushing with no open segment
is a no-op; with an open segment a row is appended iff `end_ts > start_ts`
and on acknowledged success the segment is cleared; if the storage write
raises (`dbOk = false`, only reachable when the write is attempted, i.e.
`start_ts < end_ts`), the in-memory segment is retained unchanged, keeping
its original `start_ts` for a later retry. -/
theorem C6_flush_failure_atomicity (st : TrackerState) (e : ℤ) :
    (st.current = none → ∀ dbOk, flush_locked st e dbOk = (st, true)) ∧
    (∀ cur, st.current = some cur →
      flush_locked st e true
          = ({ st with
                store := insert_session st.store cur.start_ts e cur.app cur.title cur.source
                current := none }, true) ∧
      (e ≤ cur.start_ts → ((flush_locked st e true).1).store = st.store) ∧
      (cur.start_ts < e →
        ((flush_locked st e true).1).store
          = st.store ++ [⟨cur.start_ts, e, normalize_app_label cur.app, cur.title, cur.source⟩]) ∧
      (cur.start_ts < e → flush_locked st e false = (st, false))) := by
  refine ⟨fun h dbOk => flush_locked_none e dbOk h, ?_⟩
  intro cur hc
  refine ⟨flush_locked_some_true e hc, ?_, ?_, fun hlt => flush_locked_some_false e hc hlt⟩
  · intro hle
    rw [flush_locked_some_true e hc]
    simp [insert_session, hle]
  · intro hlt
    rw [flush_locked_some_true e hc]
    simp [insert_session, not_le.2 hlt]

/-- C6 witness: with an open segment started at 10, a failing store write at
boundary 20 leaves the state (and the segment's start) untouched and signals
the failure. -/
theorem C6_flush_failure_atomicity_witness :
    flush_locked openState 20 false = (openState, false) :=
  (((C6_flush_failure_atomicity openState 20).2 ⟨"A", "t", "s", 10⟩ rfl).2.2.2) (by decide)

lemma matchLoop_cons (app title : String) (item : CompiledRule)
    (rest : List CompiledRule) :
    matchLoop (pyStrip app) (pyStrip title)
        (pyCasefold (pyStrip app)) (pyCasefold (pyStrip title)) (item :: rest)
      = if ruleMatchesSpec item app title then some item.rule
        else matchLoop (pyStrip app) (pyStrip title)
          (pyCasefold (pyStrip app)) (pyCasefold (pyStrip title)) rest := by
  cases hs : item.rule.scope <;> cases hm : item.rule.matchMode <;>
    cases hr : item.regexSearch <;>
      simp only [matchLoop, ruleMatchesSpec, hs, hm, hr] <;>
        split_ifs <;> simp_all

/-- C7. Privacy matching semantics: match_reason evaluates the compiled
rule list in order and returns the first rule satisfying the spec's
matching relation (scope selects the compared field; an empty stripped value
never matches; "contains" is a substring test of the case-folded pattern in
the case-folded value; "exact" is full case-folded equality; "regex" applies
the compiled case-insensitive search to the original-case value). -/
theorem C7_match_reason_first_match (rules : List CompiledRule)
    (app title : String) :
    match_reason rules app title
      = (rules.find? fun item => ruleMatchesSpec item app title).map
          fun item => item.rule := by
  induction rules with
  | nil => rfl
  | cons item rest ih =>
    show matchLoop _ _ _ _ (item :: rest) = _
    rw [matchLoop_cons]
    cases h : ruleMatchesSpec item app title
    · rw [if_neg (by simp [h]), List.find?_cons_of_neg _ (by simp [h])]
      exact ih
    · rw [if_pos (by simp [h]), List.find?_cons_of_pos _ (by simp [h])]
      rfl

/-- C8. Unidentified-observation suppression: a non-excluded observation
whose app is the canonical unattributed sentinel "Proceso" and whose title
is empty leaves the tracker state completely unchanged. -/
theorem C8_unidentified_noop (pf : Option (List CompiledRule)) (st : TrackerState)
    (now_ts : ℤ) (w : ActiveWindow)
    (happ : w.app = "Proceso") (htitle : w.title = "")
    (hex : should_exclude pf w = false) :
    ingest_locked pf st now_ts (some w) = st := by
  have hid : is_unidentified w = true := by
    simp only [is_unidentified, happ, htitle]
    decide
  cases h : st.current <;> simp [ingest_locked, hex, hid]

/-- C8 witness: the sentinel observation neither closes the open segment of a
concrete state nor opens a new one. -/
theorem C8_unidentified_noop_witness :
    ingest_locked none openState 100 (some obsProceso) = openState :=
  C8_unidentified_noop none openState 100 obsProceso rfl rfl (by decide)

/-- C9. Flushing a segment at a boundary equal to its start persists no row
yet still clears the open segment (the silent drop in the store counts as a
completed flush, for any storage oracle, since no write is attempted). -/
theorem C9_flush_at_start_clears (st : TrackerState) (cur : CurrentSession)
    (dbOk : Bool) (h : st.current = some cur) :
    flush_locked st cur.start_ts dbOk = ({ st with current := none }, true) := by
  simp [flush_locked, h, insert_session]

/-- C9 witness: a segment opened at 10 flushed at 10 is discarded, not
retained, even when the storage oracle would fail. -/
theorem C9_flush_at_start_clears_witness :
    flush_locked openState 10 false = ({ openState with current := none }, true) :=
  C9_flush_at_start_clears openState ⟨"A", "t", "s", 10⟩ false rfl

lemma pyTrunc_lt_of_two_le {a b : ℚ} (h : a + 2 ≤ b) : pyTrunc a < pyTrunc b := by
  have h1 : pyTrunc a ≤ ⌈a⌉ := by
    unfold pyTrunc
    split
    · exact Int.floor_le_ceil a
    · exact le_refl _
  have h2 : ⌊b⌋ ≤ pyTrunc b := by
    unfold pyTrunc
    split
    · exact le_refl _
    · exact Int.floor_le_ceil b
  have h3 : ⌈a⌉ ≤ ⌊a⌋ + 1 := Int.ceil_le_floor_add_one a
  have h4 : ⌊a + ((2:ℤ):ℚ)⌋ ≤ ⌊b⌋ := Int.floor_mono (by push_cast; linarith)
  rw [Int.floor_add_int] at h4
  omega

/-- C2. Sleep-gap detection: when the wall-vs-monotonic drift between two
consecutive ticks reaches the (clamped, hence ≥ 15s) threshold, the gap
`[previousWallTs, currentWallTs)` is detected; recording it flushes any open
segment at `previousWallTs` (not `currentWallTs`), appends exactly one
sleep-tagged session covering the gap, increments the sleep-segment counter,
and the unpaused tick then continues with normal ingestion. -/
theorem C2_sleep_gap (cfg : TrackerConfig) (pf : Option (List CompiledRule))
    (st : TrackerState) (lw lm now_wall now_mono : ℚ) (now_ts : ℤ)
    (detected : Option ActiveWindow) (idle_seconds : Option ℤ)
    (hgap : 15 ≤ cfg.sleepGapSeconds)
    (hsusp : (cfg.sleepGapSeconds : ℚ)
      ≤ max 0 (max 0 (now_wall - lw) - max 0 (now_mono - lm)))
    (hpaused : st.paused = false) :
    compute_sleep_gap cfg (some lw) (some lm) now_wall now_mono
        = some (pyTrunc lw, pyTrunc now_wall) ∧
    pyTrunc lw < pyTrunc now_wall ∧
    (record_sleep_gap_locked st (pyTrunc lw) (pyTrunc now_wall)).store
        = ((flush_locked st (pyTrunc lw) true).1).store
          ++ [⟨pyTrunc lw, pyTrunc now_wall, "Suspensión/Hibernación", "", "sleep"⟩] ∧
    (record_sleep_gap_locked st (pyTrunc lw) (pyTrunc now_wall)).sleepSegments
        = st.sleepSegments + 1 ∧
    tick_locked cfg pf st now_ts
        (compute_sleep_gap cfg (some lw) (some lm) now_wall now_mono)
        detected idle_seconds
      = ingest_locked pf (record_sleep_gap_locked st (pyTrunc lw) (pyTrunc now_wall))
          now_ts (apply_idle_state cfg detected idle_seconds) := by
  have hgapQ : (15:ℚ) ≤ (cfg.sleepGapSeconds : ℚ) := by exact_mod_cast hgap
  have h15 : (15:ℚ) ≤ max 0 (max 0 (now_wall - lw) - max 0 (now_mono - lm)) :=
    le_trans hgapQ hsusp
  have hwd : (15:ℚ) ≤ max 0 (now_wall - lw) := by
    have hmd : (0:ℚ) ≤ max 0 (now_mono - lm) := le_max_left _ _
    have hmm : max 0 (max 0 (now_wall - lw) - max 0 (now_mono - lm))
        ≤ max 0 (max 0 (now_wall - lw)) :=
      max_le_max (le_refl 0) (by linarith)
    have heq : max 0 (max 0 (now_wall - lw)) = max 0 (now_wall - lw) :=
      max_eq_right (le_max_left _ _)
    linarith [hmm, heq ▸ hmm]
  have hW : lw + 2 ≤ now_wall := by
    rcases le_or_lt (now_wall - lw) 0 with hc | hc
    · have hz : max 0 (now_wall - lw) = 0 := max_eq_left (by linarith)
      linarith [hz ▸ hwd]
    · have hz : max 0 (now_wall - lw) = now_wall - lw := max_eq_right (le_of_lt hc)
      linarith [hz ▸ hwd]
  have hlt : pyTrunc lw < pyTrunc now_wall := pyTrunc_lt_of_two_le hW
  have hnotlt : ¬ (max 0 (max 0 (now_wall - lw) - max 0 (now_mono - lm))
      < (cfg.sleepGapSeconds : ℚ)) := not_lt.2 hsusp
  have hcg : compute_sleep_gap cfg (some lw) (some lm) now_wall now_mono
      = some (pyTrunc lw, pyTrunc now_wall) := by
    simp [compute_sleep_gap, hnotlt, not_le.2 hlt]
  have hnorm : normalize_app_label "Suspensión/Hibernación" = "Suspensión/Hibernación" := by
    decide
  refine ⟨hcg, hlt, ?_, ?_, ?_⟩
  · simp [record_sleep_gap_locked, insert_session, not_le.2 hlt, hnorm]
  · simp [record_sleep_gap_locked, (flush_locked_true_counters st (pyTrunc lw)).2.1]
  · rw [hcg]
    simp [tick_locked, hpaused]

/-- C2 witness: wall clock advancing 300s while the monotonic clock advances
5s (threshold 90s, default configuration) yields the sleep gap
[1000, 1300). -/
theorem C2_sleep_gap_witness :
    compute_sleep_gap (mkTrackerConfig 2 true 60 8 90)
        (some ((1000:ℤ):ℚ)) (some ((50:ℤ):ℚ)) ((1300:ℤ):ℚ) ((55:ℤ):ℚ)
      = some (1000, 1300) := by
  have h := C2_sleep_gap (mkTrackerConfig 2 true 60 8 90) none initState
      ((1000:ℤ):ℚ) ((50:ℤ):ℚ) ((1300:ℤ):ℚ) ((55:ℤ):ℚ) 1300 none none
      (by norm_num [mkTrackerConfig, max_def])
      (by push_cast [mkTrackerConfig]; norm_num [max_def])
      rfl
  rw [h.1, pyTrunc_intCast, pyTrunc_intCast]

lemma segOk_of_current_none (pf : Option (List CompiledRule)) {st : TrackerState}
    (h : st.current = none) : segOk pf st := by
  intro cur hc
  rw [h] at hc
  cases hc

lemma segOk_of_excluded_eq (pf : Option (List CompiledRule)) {st st' : TrackerState}
    (h : segOk pf st) (hc : st'.current = st.current) : segOk pf st' := by
  intro cur hcur
  exact h cur (hc ▸ hcur)

/-- Every row in the store after a successful flush was either already there
or is the normalized image of the open segment, which is known not to match
the filter. -/
lemma flush_locked_true_store_mem (pf : Option (List CompiledRule))
    (st : TrackerState) (e : ℤ) (h : segOk pf st) :
    ∀ r ∈ ((flush_locked st e true).1).store,
      r ∈ st.store ∨
        ∃ a, r.app = normalize_app_label a ∧
          should_exclude pf ⟨a, r.title, r.source, none, none⟩ = false := by
  intro r hr
  cases hc : st.current with
  | none =>
    rw [flush_locked_none e true hc] at hr
    exact Or.inl hr
  | some cur =>
    rw [flush_locked_some_true e hc] at hr
    dsimp at hr
    unfold insert_session at hr
    split at hr
    · exact Or.inl hr
    · rcases List.mem_append.1 hr with h1 | h1
      · exact Or.inl h1
      · rcases List.mem_singleton.1 h1 with rfl
        exact Or.inr ⟨cur.app, rfl, h cur hc⟩

/-- One ingestion step preserves the non-matching-segment invariant and only
appends rows that are normalized images of non-matching segments. -/
lemma ingest_locked_inv (pf : Option (List CompiledRule)) (st : TrackerState)
    (now_ts : ℤ) (obs : Option ActiveWindow) (h : segOk pf st) :
    segOk pf (ingest_locked pf st now_ts obs) ∧
    ∀ r ∈ (ingest_locked pf st now_ts obs).store,
      r ∈ st.store ∨
        ∃ a, r.app = normalize_app_label a ∧
          should_exclude pf ⟨a, r.title, r.source, none, none⟩ = false := by
  cases obs with
  | none =>
    refine ⟨?_, ?_⟩
    · exact segOk_of_current_none pf (flush_locked_true_current st now_ts)
    · exact flush_locked_true_store_mem pf st now_ts h
  | some w =>
    by_cases hex : should_exclude pf w = true
    · have hst1 : segOk pf { st with excludedMatches := st.excludedMatches + 1 } :=
        segOk_of_excluded_eq pf h rfl
      have hred : ingest_locked pf st now_ts (some w)
          = (flush_locked { st with excludedMatches := st.excludedMatches + 1 } now_ts true).1 := by
        simp [ingest_locked, hex]
      rw [hred]
      refine ⟨segOk_of_current_none pf (flush_locked_true_current _ _), ?_⟩
      exact flush_locked_true_store_mem pf _ now_ts hst1
    · have hex' : should_exclude pf w = false := by simpa using hex
      by_cases hid : is_unidentified w = true
      · have hred : ingest_locked pf st now_ts (some w) = st := by
          simp [ingest_locked, hex', hid]
        rw [hred]
        exact ⟨h, fun r hr => Or.inl hr⟩
      · have hid' : is_unidentified w = false := by simpa using hid
        have hwseg : should_exclude pf ⟨w.app, w.title, w.source, none, none⟩ = false := by
          rw [should_exclude_fields pf w]
          exact hex'
        cases hc : st.current with
        | none =>
          have hred : ingest_locked pf st now_ts (some w)
              = { st with current := some ⟨w.app, w.title, w.source, now_ts⟩ } := by
            simp [ingest_locked, hex', hid', hc]
          rw [hred]
          refine ⟨?_, fun r hr => Or.inl hr⟩
          intro cur hcur
          rcases Option.some_inj.1 hcur with rfl
          exact hwseg
        | some cur =>
          cases heq : (cur.app = w.app && cur.title = w.title && cur.source = w.source) with
          | true =>
            have hred : ingest_locked pf st now_ts (some w) = st := by
              simp only [ingest_locked, hex', hid', hc]
              simp [heq]
            rw [hred]
            exact ⟨h, fun r hr => Or.inl hr⟩
          | false =>
            have hred : ingest_locked pf st now_ts (some w)
                = { (flush_locked st now_ts true).1 with
                    current := some ⟨w.app, w.title, w.source, now_ts⟩ } := by
              simp only [ingest_locked, hex', hid', hc]
              simp [heq]
            rw [hred]
            refine ⟨?_, ?_⟩
            · intro cur' hcur
              rcases Option.some_inj.1 hcur with rfl
              exact hwseg
            · intro r hr
              exact flush_locked_true_store_mem pf st now_ts h r hr

/-- The one-step invariant extended to a whole run of ingestion ticks. -/
lemma run_ingest_inv (pf : Option (List CompiledRule))
    (ticks : List (ℤ × Option ActiveWindow)) :
    ∀ st, segOk pf st →
      segOk pf (run_ingest pf st ticks) ∧
      ∀ r ∈ (run_ingest pf st ticks).store,
        r ∈ st.store ∨
          ∃ a, r.app = normalize_app_label a ∧
            should_exclude pf ⟨a, r.title, r.source, none, none⟩ = false := by
  induction ticks with
  | nil => exact fun st h => ⟨h, fun r hr => Or.inl hr⟩
  | cons t rest ih =>
    intro st h
    have hstep := ingest_locked_inv pf st t.1 t.2 h
    have hrest := ih (ingest_locked pf st t.1 t.2) hstep.1
    refine ⟨hrest.1, ?_⟩
    intro r hr
    rcases hrest.2 r hr with h1 | h1
    · exact hstep.2 r h1
    · exact Or.inr h1

/-- C4 counterexample: the claim fails as stated on the code.  (i) The
observation ("Proceso", "") matches the enabled app-contains rule "proceso"
and is excluded, but after disabling the rule the same observation does NOT
open a session (it is suppressed as unidentified), contradicting "disabling
the rule ... opens a normal session".  (ii) Under the enabled app-exact rule
"proceso", ingesting ("desconocido", "x") — which does not match — and then
flushing writes the row ("Proceso", "x"), whose stored (app, title) DOES
match the still-enabled rule, contradicting "no session whose (app, title)
matches an enabled rule is ever written": exclusion is checked on the raw
observation, storage normalizes the label afterwards. -/
theorem C4_privacy_exclusion_counterexample :
    should_exclude exFilterOn obsProceso = true ∧
    (ingest_locked exFilterOn initState 100 (some obsProceso)).excludedMatches = 1 ∧
    (ingest_locked exFilterOff initState 100 (some obsProceso)).current = none ∧
    should_exclude exFilterExact obsDesconocido = false ∧
    (run_ingest exFilterExact initState [(10, some obsDesconocido), (20, none)]).store
        = [⟨10, 20, "Proceso", "x", "src"⟩] ∧
    is_excluded (compileRules noRegexSem [exRuleExact]) "Proceso" "x" = true := by
  decide

/-- C4 (amended). Per tick, an observation matching an enabled rule
increments the exclusion counter, flushes any open segment, and opens no new
segment; over any run of ingestion ticks whose initial open segment (if any)
does not match the filter, every stored row is the app-label-normalized
image of an observed (app, title) that did not match the filter (the match
is checked on the observation before storage normalization); and after
disabling the rule, the same observation opens a normal session provided it
is identified (not the unattributed sentinel with an empty title). -/
theorem C4_privacy_exclusion (pf : Option (List CompiledRule)) :
    (∀ st now_ts w, should_exclude pf w = true →
      ingest_locked pf st now_ts (some w)
          = (flush_locked { st with excludedMatches := st.excludedMatches + 1 }
              now_ts true).1 ∧
      (ingest_locked pf st now_ts (some w)).current = none ∧
      (ingest_locked pf st now_ts (some w)).excludedMatches
          = st.excludedMatches + 1) ∧
    (∀ ticks st, segOk pf st →
      segOk pf (run_ingest pf st ticks) ∧
      ∀ r ∈ (run_ingest pf st ticks).store,
        r ∈ st.store ∨
          ∃ a, r.app = normalize_app_label a ∧
            should_exclude pf ⟨a, r.title, r.source, none, none⟩ = false) ∧
    (∀ st now_ts w, should_exclude pf w = false → is_unidentified w = false →
      st.current = none →
      (ingest_locked pf st now_ts (some w)).current
          = some ⟨w.app, w.title, w.source, now_ts⟩) := by
  refine ⟨?_, ?_, ?_⟩
  · intro st now_ts w hw
    have hred : ingest_locked pf st now_ts (some w)
        = (flush_locked { st with excludedMatches := st.excludedMatches + 1 }
            now_ts true).1 := by
      simp [ingest_locked, hw]
    refine ⟨hred, ?_, ?_⟩
    · rw [hred]
      exact flush_locked_true_current _ _
    · rw [hred]
      exact (flush_locked_true_counters _ _).1
  · exact fun ticks st h => run_ingest_inv pf ticks st h
  · intro st now_ts w hex hid hc
    simp [ingest_locked, hex, hid, hc]

/-- C4 witness: the excluded sentinel observation bumps the exclusion
counter of the fresh state by one. -/
theorem C4_privacy_exclusion_witness :
    (ingest_locked exFilterOn initState 100 (some obsProceso)).excludedMatches
      = initState.excludedMatches + 1 :=
  ((C4_privacy_exclusion exFilterOn).1 initState 100 obsProceso (by decide)).2.2

/-- C10. The tracker constructor clamps its configuration: the effective tick
interval is max(0.5, requested), the idle and effective-idle thresholds are
at least 1 second, and the sleep-gap threshold is at least 15 seconds. -/
theorem C10_config_clamped (interval : ℚ) (idle_enabled : Bool)
    (idle_thr eff_idle sleep_gap : ℤ) :
    (mkTrackerConfig interval idle_enabled idle_thr eff_idle sleep_gap).intervalSeconds
        = max (1/2 : ℚ) interval ∧
    (1/2 : ℚ) ≤ (mkTrackerConfig interval idle_enabled idle_thr eff_idle sleep_gap).intervalSeconds ∧
    (mkTrackerConfig interval idle_enabled idle_thr eff_idle sleep_gap).idleThresholdSeconds
        = max 1 idle_thr ∧
    1 ≤ (mkTrackerConfig interval idle_enabled idle_thr eff_idle sleep_gap).idleThresholdSeconds ∧
    (mkTrackerConfig interval idle_enabled idle_thr eff_idle sleep_gap).effectiveIdleSeconds
        = max 1 eff_idle ∧
    1 ≤ (mkTrackerConfig interval idle_enabled idle_thr eff_idle sleep_gap).effectiveIdleSeconds ∧
    (mkTrackerConfig interval idle_enabled idle_thr eff_idle sleep_gap).sleepGapSeconds
        = max 15 sleep_gap ∧
    15 ≤ (mkTrackerConfig interval idle_enabled idle_thr eff_idle sleep_gap).sleepGapSeconds :=
  ⟨rfl, le_max_left _ _, rfl, le_max_left _ _, rfl, le_max_left _ _, rfl, le_max_left _ _⟩

end ActividadWeb
